import Mathlib

set_option autoImplicit false

/-
Shallow embedding of the Groqchat client (two variants):
the phase variant in src/js/script.js (topic-setting phase, HTF grammar
system prompt) and the simple variant in src/unnamed/part_000 (plain chat).
DOM rendering, localStorage and the speech engine are modelled as effect
records; the remote completion endpoint is modelled as an oracle value
consumed by fetchGroqCompletion.
-/

namespace Groqchat

/-- Chat message as stored in the history array and sent in request
payloads: objects of shape with a role field and a content field. -/
structure Message where
  role : String
  content : String
deriving DecidableEq, Repr

/-- JSON body sent to the completions endpoint: model, messages,
temperature and max_tokens fields (script.js lines 207-212,
part_000 lines 158-163). -/
structure Request where
  model : String
  messages : List Message
  temperature : Rat
  max_tokens : Nat
deriving DecidableEq, Repr

/-- Utterance handed to window.speechSynthesis.speak: the cleaned text and
the language tag chosen by the Japanese-character test. -/
structure Utterance where
  text : String
  lang : String
deriving DecidableEq, Repr

/-- Observable side effects of one controller operation: messages rendered
to the chat container, alert dialogs, network requests issued to the
completion endpoint, and utterances handed to the speech engine. -/
structure Effects where
  rendered : List Message
  alerts : List String
  fetches : List Request
  utterances : List Utterance
deriving DecidableEq, Repr

/-- Empty effect record: nothing rendered, alerted, fetched or spoken. -/
def noEffects : Effects := ⟨[], [], [], []⟩

/-- Oracle describing what the remote endpoint did for one fetch:
a success body with choices[0].message.content present, a non-success
status whose JSON body optionally carries error.message, or a thrown
exception (network failure or malformed body) with its message text. -/
inductive FetchOutcome where
  | ok (content : String)
  | apiError (errMessage : Option String)
  | exn (message : String)
deriving DecidableEq, Repr

/-- Result of awaiting the fetch and decoding the body, as in script.js
lines 215-221 and part_000 lines 166-172: on a non-success status the
thrown message is err.error?.message when that is truthy (JavaScript
logical-or, so the empty string also falls back), else the fallback
string; a thrown exception propagates its own message. -/
def interpretOutcome : FetchOutcome → Except String String
  | .ok c => .ok c
  | .apiError m =>
      .error (match m with
        | some s => if s = "" then "API Request Failed" else s
        | none => "API Request Failed")
  | .exn m => .error m

/-- Static model catalog (id, display name pairs), identical in both
variants (script.js lines 10-15, part_000 lines 2-7). -/
def MODELS : List (String × String) :=
  [("llama-3.3-70b-versatile", "Llama 3.3 70B"),
   ("llama-3.1-8b-instant", "Llama 3.1 8B"),
   ("deepseek-r1-distill-llama-70b", "DeepSeek R1 70B"),
   ("deepseek-r1-distill-qwen-32b", "DeepSeek R1 32B")]

/-- ECMAScript white space and line terminator set used by
String.prototype.trim. -/
def jsWhitespace (c : Char) : Bool :=
  c.toNat = 0x9 || c.toNat = 0xA || c.toNat = 0xB || c.toNat = 0xC ||
  c.toNat = 0xD || c.toNat = 0x20 || c.toNat = 0xA0 || c.toNat = 0x1680 ||
  (0x2000 ≤ c.toNat && c.toNat ≤ 0x200A) || c.toNat = 0x2028 ||
  c.toNat = 0x2029 || c.toNat = 0x202F || c.toNat = 0x205F ||
  c.toNat = 0x3000 || c.toNat = 0xFEFF

/-- JavaScript String.prototype.trim: drop leading and trailing white
space and line terminators. -/
def jsTrim (s : String) : String :=
  ⟨((s.data.dropWhile jsWhitespace).reverse.dropWhile jsWhitespace).reverse⟩

/-- HTF grammar constant of script.js lines 20-32, transcribed verbatim
(the template literal begins and ends with a newline). -/
def HTF_GRAMMAR : String :=
  "\n## HTF Grammar Definition (Holonic Text Format)\n- Format: [KEY: Value {Attribute}]\n- Hierarchy: 2つのスペースによるインデントで継承を示す。\n- Layers:\n  1. KERNEL: @GLOBAL (不変の法則)\n  2. SCOPE: [ORDER], [AESTHETIC] (目的と美学)\n  3. ENVIRONMENT: [WORLD_SETTING], [LAW] (環境と制約)\n  4. ENTITY: [SUBJECT], [CLASS], [FUNCTION] (個体と機能)\n  5. EVENT: [ACTION], [PHASE] (時間的秩序)\n- Reference: &KEY で他のホロンを参照。\n- Goal: 与えられた題目に対し、この文法を用いて「認知の枠組み（インストラクション）」を構築すること。\n"

/-- Conversation phase of the phase variant (script.js line 38). -/
inductive Phase where
  | TOPIC_SETTING
  | HTF_DISCUSSION
  | FINAL_RESULT
deriving DecidableEq, Repr

/-- Mutable application state of the phase variant (script.js lines
35-44); isSpeaking is owned by the speech engine callbacks and
is omitted. -/
structure AppState where
  apiKey : String
  model : String
  phase : Phase
  topic : String
  currentHTF : String
  history : List Message
  autoSpeak : Bool
deriving DecidableEq, Repr

/-- Initial state literal of script.js lines 35-44; the model default is
MODELS[0].id. -/
def initialState : AppState :=
  { apiKey := ""
    model := "llama-3.3-70b-versatile"
    phase := .TOPIC_SETTING
    topic := ""
    currentHTF := ""
    history := []
    autoSpeak := true }

/-- State after init (script.js lines 61-103): a truthy saved key is
loaded, and a saved model is honored only when it matches a catalog id. -/
def initApp (savedKey savedModel : Option String) : AppState :=
  let s1 := match savedKey with
    | some k => if k ≠ "" then { initialState with apiKey := k } else initialState
    | none => initialState
  match savedModel with
  | some m => if MODELS.any (fun p => p.1 = m) then { s1 with model := m } else s1
  | none => s1

/-- Click handler saveApiKey (script.js lines 107-116): a non-empty
trimmed key is stored and confirmed, otherwise an alert asks for a valid
key and the state is unchanged. -/
def saveApiKey (st : AppState) (raw : String) : AppState × Effects :=
  let key := jsTrim raw
  if key ≠ "" then
    ({ st with apiKey := key }, { noEffects with alerts := ["API Key saved locally."] })
  else
    (st, { noEffects with alerts := ["Please enter a valid API Key."] })

/-- Model-select change handler (script.js lines 85-88). -/
def setModelOp (st : AppState) (m : String) : AppState := { st with model := m }

/-- Auto-speak toggle handler (script.js lines 89-91). -/
def setAutoSpeakOp (st : AppState) (b : Bool) : AppState := { st with autoSpeak := b }

/-- System prompt of the phase variant (script.js line 194): fixed
consultant preamble, the HTF grammar verbatim, then the current topic
interpolated into the discussion-phase instruction. -/
def systemContentPhase (topic : String) : String :=
  "あなたはHTF（Holonic Text Format）の専門家であり、ユーザーの課題解決を支援するコンサルタントです。\n"
    ++ HTF_GRAMMAR
    ++ "\n現在は「協議フェーズ」です。ユーザーの「題目："
    ++ topic
    ++ "」に対し、最適な秩序を生成するためのHTF構造を提案してください。"

/-- Request body built by fetchGroqCompletion in the phase variant
(script.js lines 196-212): one synthesized system message prepended to
the whole history, temperature 0.7 and max_tokens 2048. -/
def buildRequestPhase (st : AppState) : Request :=
  { model := st.model
    messages := ⟨"system", systemContentPhase st.topic⟩ :: st.history
    temperature := 7/10
    max_tokens := 2048 }

/-- fetchGroqCompletion of the phase variant (script.js lines 192-222):
issues the built request and yields the decoded outcome. -/
def fetchGroqCompletion (st : AppState) (o : FetchOutcome) : Request × Except String String :=
  (buildRequestPhase st, interpretOutcome o)

/-- Markdown marker characters removed before narration: asterisk, hash
and backtick (the regex character class at script.js line 276 and
part_000 line 225). -/
def mdMark (c : Char) : Bool :=
  c == '*' || c == '#' || c == Char.ofNat 0x60

/-- Removal of markdown markers from the narrated copy. -/
def stripMarkdown (s : String) : String :=
  ⟨s.data.filter (fun c => !(mdMark c))⟩

/-- First occurrence split: when the pattern occurs in the list, return
the part before the first occurrence and the part after it. -/
def listSplitFirst (pat : List Char) : List Char → Option (List Char × List Char)
  | [] => if pat.isEmpty then some ([], []) else none
  | c :: cs =>
      if pat.isPrefixOf (c :: cs) then some ([], (c :: cs).drop pat.length)
      else match listSplitFirst pat cs with
        | some (pre, post) => some (c :: pre, post)
        | none => none

/-- Opening tag of a thinking block. -/
def openTag : List Char := "<think>".data

/-- Closing tag of a thinking block. -/
def closeTag : List Char := "</think>".data

/-- Fuel-indexed worker for the global non-greedy replacement of
thinking blocks: each match runs from an opening tag to the first
closing tag after it, the match is dropped, and scanning resumes after
the match; an opening tag with no later closing tag matches nothing. -/
def removeThinkAux : Nat → List Char → List Char
  | 0, cs => cs
  | Nat.succ fuel, cs =>
      match listSplitFirst openTag cs with
      | none => cs
      | some (pre, rest) =>
          match listSplitFirst closeTag rest with
          | none => cs
          | some (_, post) => pre ++ removeThinkAux fuel post

/-- Global replacement of thinking blocks by the empty string, as the
regex at script.js line 275 does (phase variant only). -/
def removeThink (s : String) : String :=
  ⟨removeThinkAux s.data.length s.data⟩

/-- Membership test for the Hiragana block (U+3040 to U+309F) and the
Katakana block (U+30A0 to U+30FF), the character class tested at
script.js line 281 and part_000 line 231. -/
def isKana (c : Char) : Bool :=
  (0x3040 ≤ c.toNat && c.toNat ≤ 0x309F) || (0x30A0 ≤ c.toNat && c.toNat ≤ 0x30FF)

/-- Japanese detection over the cleaned text. -/
def hasJapanese (s : String) : Bool := s.data.any isKana

/-- Narration cleaning of the phase variant (script.js lines 274-276):
thinking blocks removed first, then markdown markers. -/
def cleanTextPhase (s : String) : String := stripMarkdown (removeThink s)

/-- speakText of the phase variant (script.js lines 270-285): the
utterance carries the cleaned text and the language tag ja-JP when the
cleaned text contains kana, else en-US. -/
def speakTextPhase (text : String) : Utterance :=
  let cleanText := cleanTextPhase text
  { text := cleanText, lang := if hasJapanese cleanText then "ja-JP" else "en-US" }

/-- handleDiscussionStart (script.js lines 174-186): one completion call
over the current history; on success the assistant reply is appended to
history, rendered and optionally spoken; on failure a single system
error message is rendered and the state is unchanged. -/
def handleDiscussionStart (st : AppState) (o : FetchOutcome) : AppState × Effects :=
  let req := (fetchGroqCompletion st o).1
  match (fetchGroqCompletion st o).2 with
  | .ok responseText =>
      ({ st with history := st.history ++ [⟨"assistant", responseText⟩] },
       { rendered := [⟨"assistant", responseText⟩]
         alerts := []
         fetches := [req]
         utterances := if st.autoSpeak then [speakTextPhase responseText] else [] })
  | .error e =>
      (st, { rendered := [⟨"system", "Error: " ++ e⟩]
             alerts := []
             fetches := [req]
             utterances := [] })

/-- Synthetic begin-consultation user message enqueued by setTopic
(script.js line 170). -/
def consultationMessage (text : String) : String :=
  "題目は「" ++ text
    ++ "」です。この課題を解決するために、HTF文法を用いてどのような[SCOPE]や[ENVIRONMENT]、[ENTITY]を定義すべきか、私に質問しながら協議を開始してください。"

/-- Local display messages emitted by setTopic (script.js lines 166-167):
the topic echo and the setup notice, rendered only, never stored. -/
def announceRendered (text : String) : List Message :=
  [⟨"user", "題目: " ++ text⟩,
   ⟨"system", "題目を「" ++ text
     ++ "」に設定しました。これからこの課題を解決するためのHTFインストラクションを構築します。AIと相談しながら文脈を固めていきましょう。"⟩]

/-- setTopic (script.js lines 157-172): stores the topic, enters the
discussion phase, renders the announcement locally, appends the
begin-consultation user message to history and runs
handleDiscussionStart. -/
def setTopic (st : AppState) (text : String) (o : FetchOutcome) : AppState × Effects :=
  let st2 : AppState :=
    { st with topic := text
              phase := .HTF_DISCUSSION
              history := st.history ++ [⟨"user", consultationMessage text⟩] }
  let res := handleDiscussionStart st2 o
  (res.1, { res.2 with rendered := announceRendered text ++ res.2.rendered })

/-- handleSend of the phase variant (script.js lines 118-155): blank
trimmed input is ignored; a missing key alerts without any call; in the
topic phase the turn runs setTopic; otherwise the user message is
appended and rendered, one completion call is made, and either the
assistant reply is appended, rendered and optionally spoken, or a single
system error message is rendered. -/
def handleSend (st : AppState) (input : String) (o : FetchOutcome) : AppState × Effects :=
  let text := jsTrim input
  if text = "" then (st, noEffects)
  else if st.apiKey = "" then
    (st, { noEffects with alerts := ["Groq APIキーを設定してください。"] })
  else if st.phase = .TOPIC_SETTING then
    setTopic st text o
  else
    let st1 := { st with history := st.history ++ [⟨"user", text⟩] }
    let req := (fetchGroqCompletion st1 o).1
    match (fetchGroqCompletion st1 o).2 with
    | .ok responseText =>
        ({ st1 with history := st1.history ++ [⟨"assistant", responseText⟩] },
         { rendered := [⟨"user", text⟩, ⟨"assistant", responseText⟩]
           alerts := []
           fetches := [req]
           utterances := if st.autoSpeak then [speakTextPhase responseText] else [] })
    | .error e =>
        (st1, { rendered := [⟨"user", text⟩, ⟨"system", "Error: " ++ e⟩]
                alerts := []
                fetches := [req]
                utterances := [] })

/-- One user-visible operation of the phase-variant controller. -/
inductive Step : AppState → AppState → Prop where
  | send (st : AppState) (input : String) (o : FetchOutcome) :
      Step st (handleSend st input o).1
  | saveKey (st : AppState) (raw : String) : Step st (saveApiKey st raw).1
  | setModel (st : AppState) (m : String) : Step st (setModelOp st m)
  | setAutoSpeak (st : AppState) (b : Bool) : Step st (setAutoSpeakOp st b)

/-- States of the phase variant reachable from some run of init. -/
inductive Reachable : AppState → Prop where
  | init (savedKey savedModel : Option String) : Reachable (initApp savedKey savedModel)
  | step {st st₁ : AppState} : Reachable st → Step st st₁ → Reachable st₁

/-- History well-formedness: every stored message is a user or assistant
message (addMessageToHistory is only ever called with these two roles). -/
def RolesOk (l : List Message) : Prop :=
  ∀ m ∈ l, m.role = "user" ∨ m.role = "assistant"

/-- Inductive invariant of the phase variant: in the topic phase the
topic is empty and the history is empty, and the history only ever holds
user and assistant messages. -/
def Inv (st : AppState) : Prop :=
  (st.phase = .TOPIC_SETTING → st.topic = "" ∧ st.history = []) ∧ RolesOk st.history

namespace Simple

/-- Mutable application state of the simple variant (part_000 lines
12-18); isSpeaking is owned by the speech engine callbacks and omitted. -/
structure SState where
  apiKey : String
  model : String
  history : List Message
  autoSpeak : Bool
deriving DecidableEq, Repr

/-- Initial state literal of part_000 lines 12-18. -/
def initialState : SState :=
  { apiKey := ""
    model := "llama-3.3-70b-versatile"
    history := []
    autoSpeak := true }

/-- State after init (part_000 lines 34-81): same settings loading as the
phase variant. -/
def initApp (savedKey savedModel : Option String) : SState :=
  let s1 := match savedKey with
    | some k => if k ≠ "" then { initialState with apiKey := k } else initialState
    | none => initialState
  match savedModel with
  | some m => if MODELS.any (fun p => p.1 = m) then { s1 with model := m } else s1
  | none => s1

/-- saveApiKey of the simple variant (part_000 lines 85-94). -/
def saveApiKey (st : SState) (raw : String) : SState × Effects :=
  let key := jsTrim raw
  if key ≠ "" then
    ({ st with apiKey := key }, { noEffects with alerts := ["API Key saved locally."] })
  else
    (st, { noEffects with alerts := ["Please enter a valid API Key."] })

/-- Fixed generic system prompt of the simple variant (part_000 line
148). -/
def systemContent : String :=
  "You are a helpful AI assistant. Answer concisely and clearly."

/-- Request body built by fetchGroqCompletion in the simple variant
(part_000 lines 147-163): one synthesized system message prepended to
the whole history, temperature 0.7 and max_tokens 1024. -/
def buildRequest (st : SState) : Request :=
  { model := st.model
    messages := ⟨"system", systemContent⟩ :: st.history
    temperature := 7/10
    max_tokens := 1024 }

/-- fetchGroqCompletion of the simple variant (part_000 lines 144-173). -/
def fetchGroqCompletion (st : SState) (o : FetchOutcome) : Request × Except String String :=
  (buildRequest st, interpretOutcome o)

/-- speakText of the simple variant (part_000 lines 221-255): markdown
markers stripped (no thinking-block removal here), then the same
Japanese-character language test; rate, pitch and volume are narration
engine parameters outside the modelled contract. -/
def speakText (text : String) : Utterance :=
  let cleanText := stripMarkdown text
  { text := cleanText, lang := if hasJapanese cleanText then "ja-JP" else "en-US" }

/-- handleSend of the simple variant (part_000 lines 96-136): blank
trimmed input is ignored; a missing key alerts without any call;
otherwise the user message is appended, rendered and optionally spoken,
one completion call is made, and either the assistant reply is appended,
rendered and optionally spoken, or a single system error message is
rendered. -/
def handleSend (st : SState) (input : String) (o : FetchOutcome) : SState × Effects :=
  let text := jsTrim input
  if text = "" then (st, noEffects)
  else if st.apiKey = "" then
    (st, { noEffects with alerts := ["Please set your Groq API Key first."] })
  else
    let st1 := { st with history := st.history ++ [⟨"user", text⟩] }
    let promptUtt : List Utterance := if st.autoSpeak then [speakText text] else []
    let req := (fetchGroqCompletion st1 o).1
    match (fetchGroqCompletion st1 o).2 with
    | .ok responseText =>
        ({ st1 with history := st1.history ++ [⟨"assistant", responseText⟩] },
         { rendered := [⟨"user", text⟩, ⟨"assistant", responseText⟩]
           alerts := []
           fetches := [req]
           utterances := promptUtt ++ (if st.autoSpeak then [speakText responseText] else []) })
    | .error e =>
        (st1, { rendered := [⟨"user", text⟩, ⟨"system", "Error: " ++ e⟩]
                alerts := []
                fetches := [req]
                utterances := promptUtt })

/-- Model-select change handler (part_000 lines 61-64). -/
def setModelOp (st : SState) (m : String) : SState := { st with model := m }

/-- Auto-speak toggle handler (part_000 lines 65-67). -/
def setAutoSpeakOp (st : SState) (b : Bool) : SState := { st with autoSpeak := b }

/-- One user-visible operation of the simple-variant controller. -/
inductive SStep : SState → SState → Prop where
  | send (st : SState) (input : String) (o : FetchOutcome) :
      SStep st (handleSend st input o).1
  | saveKey (st : SState) (raw : String) : SStep st (saveApiKey st raw).1
  | setModel (st : SState) (m : String) : SStep st (setModelOp st m)
  | setAutoSpeak (st : SState) (b : Bool) : SStep st (setAutoSpeakOp st b)

/-- States of the simple variant reachable from some run of init. -/
inductive SReachable : SState → Prop where
  | init (savedKey savedModel : Option String) : SReachable (initApp savedKey savedModel)
  | step {st st₁ : SState} : SReachable st → SStep st st₁ → SReachable st₁

/-- Inductive invariant of the simple variant: the history only ever
holds user and assistant messages. -/
def SInv (st : SState) : Prop := RolesOk st.history

end Simple

/-! Helper lemmas: branch equations for the controller operations and the
reachability invariants shared by several theorems. -/

/-- Outcome decoding is exhaustive: either the oracle succeeded with some
content, or decoding yields an error message. -/
lemma interpretOutcome_cases (o : FetchOutcome) :
    (∃ r, o = .ok r) ∨ (∃ e, interpretOutcome o = .error e) := by
  cases o with
  | ok r => exact Or.inl ⟨r, rfl⟩
  | apiError m => exact Or.inr ⟨_, rfl⟩
  | exn m => exact Or.inr ⟨_, rfl⟩

/-- Decoding succeeds exactly on a success oracle. -/
lemma interpretOutcome_ok_iff (o : FetchOutcome) (r : String) :
    interpretOutcome o = .ok r ↔ o = .ok r := by
  cases o with
  | ok c => simp [interpretOutcome]
  | apiError m => simp [interpretOutcome]
  | exn m => simp [interpretOutcome]

lemma handleSend_empty (st : AppState) (input : String) (o : FetchOutcome)
    (h : jsTrim input = "") : handleSend st input o = (st, noEffects) := by
  simp [handleSend, h]

lemma handleSend_noKey (st : AppState) (input : String) (o : FetchOutcome)
    (h : jsTrim input ≠ "") (hk : st.apiKey = "") :
    handleSend st input o =
      (st, { noEffects with alerts := ["Groq APIキーを設定してください。"] }) := by
  simp [handleSend, h, hk]

lemma handleSend_topicPhase (st : AppState) (input : String) (o : FetchOutcome)
    (h : jsTrim input ≠ "") (hk : st.apiKey ≠ "") (hp : st.phase = .TOPIC_SETTING) :
    handleSend st input o = setTopic st (jsTrim input) o := by
  simp [handleSend, h, hk, hp]

lemma setTopic_ok (st : AppState) (text r : String) :
    setTopic st text (.ok r) =
      ({ st with topic := text
                 phase := .HTF_DISCUSSION
                 history := st.history ++ [⟨"user", consultationMessage text⟩,
                                           ⟨"assistant", r⟩] },
       { rendered := announceRendered text ++ [⟨"assistant", r⟩]
         alerts := []
         fetches := [buildRequestPhase
           { st with topic := text
                     phase := .HTF_DISCUSSION
                     history := st.history ++ [⟨"user", consultationMessage text⟩] }]
         utterances := if st.autoSpeak then [speakTextPhase r] else [] }) := by
  simp [setTopic, handleDiscussionStart, fetchGroqCompletion, interpretOutcome]

lemma setTopic_error (st : AppState) (text : String) (o : FetchOutcome) (e : String)
    (ho : interpretOutcome o = .error e) :
    setTopic st text o =
      ({ st with topic := text
                 phase := .HTF_DISCUSSION
                 history := st.history ++ [⟨"user", consultationMessage text⟩] },
       { rendered := announceRendered text ++ [⟨"system", "Error: " ++ e⟩]
         alerts := []
         fetches := [buildRequestPhase
           { st with topic := text
                     phase := .HTF_DISCUSSION
                     history := st.history ++ [⟨"user", consultationMessage text⟩] }]
         utterances := [] }) := by
  simp [setTopic, handleDiscussionStart, fetchGroqCompletion, ho]

lemma handleSend_discussion_ok (st : AppState) (input r : String)
    (h : jsTrim input ≠ "") (hk : st.apiKey ≠ "") (hp : st.phase ≠ .TOPIC_SETTING) :
    handleSend st input (.ok r) =
      ({ st with history := st.history ++ [⟨"user", jsTrim input⟩, ⟨"assistant", r⟩] },
       { rendered := [⟨"user", jsTrim input⟩, ⟨"assistant", r⟩]
         alerts := []
         fetches := [buildRequestPhase
           { st with history := st.history ++ [⟨"user", jsTrim input⟩] }]
         utterances := if st.autoSpeak then [speakTextPhase r] else [] }) := by
  simp [handleSend, h, hk, hp, fetchGroqCompletion, interpretOutcome]

lemma handleSend_discussion_error (st : AppState) (input : String) (o : FetchOutcome)
    (e : String) (h : jsTrim input ≠ "") (hk : st.apiKey ≠ "")
    (hp : st.phase ≠ .TOPIC_SETTING) (ho : interpretOutcome o = .error e) :
    handleSend st input o =
      ({ st with history := st.history ++ [⟨"user", jsTrim input⟩] },
       { rendered := [⟨"user", jsTrim input⟩, ⟨"system", "Error: " ++ e⟩]
         alerts := []
         fetches := [buildRequestPhase
           { st with history := st.history ++ [⟨"user", jsTrim input⟩] }]
         utterances := [] }) := by
  simp [handleSend, h, hk, hp, fetchGroqCompletion, ho]

lemma rolesOk_append {a b : List Message} (ha : RolesOk a) (hb : RolesOk b) :
    RolesOk (a ++ b) := by
  intro m hm
  rcases List.mem_append.mp hm with h | h
  · exact ha m h
  · exact hb m h

lemma rolesOk_pair (t r : String) :
    RolesOk [⟨"user", t⟩, ⟨"assistant", r⟩] := by
  intro m hm
  rcases List.mem_cons.mp hm with rfl | hm
  · exact Or.inl rfl
  rcases List.mem_cons.mp hm with rfl | hm
  · exact Or.inr rfl
  · cases hm

lemma rolesOk_user (t : String) : RolesOk [⟨"user", t⟩] := by
  intro m hm
  rcases List.mem_cons.mp hm with rfl | hm
  · exact Or.inl rfl
  · cases hm

lemma inv_initApp (k m : Option String) : Inv (initApp k m) := by
  have hbase : Inv initialState := by
    refine ⟨fun _ => ⟨rfl, rfl⟩, ?_⟩
    intro x hx; cases hx
  unfold initApp
  cases k <;> cases m <;> dsimp <;> (try split_ifs) <;> exact hbase

lemma inv_step {st st₁ : AppState} (h : Inv st) (hs : Step st st₁) : Inv st₁ := by
  cases hs with
  | send input o =>
      by_cases h1 : jsTrim input = ""
      · rw [handleSend_empty st input o h1]; exact h
      by_cases h2 : st.apiKey = ""
      · rw [handleSend_noKey st input o h1 h2]; exact h
      by_cases h3 : st.phase = .TOPIC_SETTING
      · rw [handleSend_topicPhase st input o h1 h2 h3]
        rcases interpretOutcome_cases o with ⟨r, rfl⟩ | ⟨e, ho⟩
        · rw [setTopic_ok]
          refine ⟨by simp, ?_⟩
          exact rolesOk_append h.2 (rolesOk_pair _ _)
        · rw [setTopic_error st _ o e ho]
          refine ⟨by simp, ?_⟩
          exact rolesOk_append h.2 (rolesOk_user _)
      · rcases interpretOutcome_cases o with ⟨r, rfl⟩ | ⟨e, ho⟩
        · rw [handleSend_discussion_ok st input r h1 h2 h3]
          refine ⟨fun hph => absurd hph h3, ?_⟩
          exact rolesOk_append h.2 (rolesOk_pair _ _)
        · rw [handleSend_discussion_error st input o e h1 h2 h3 ho]
          refine ⟨fun hph => absurd hph h3, ?_⟩
          exact rolesOk_append h.2 (rolesOk_user _)
  | saveKey raw =>
      dsimp [saveApiKey]
      split_ifs <;> exact h
  | setModel m => exact h
  | setAutoSpeak b => exact h

/-- Every reachable phase-variant state satisfies the invariant. -/
lemma inv_reachable {st : AppState} (h : Reachable st) : Inv st := by
  induction h with
  | init k m => exact inv_initApp k m
  | step _ hs ih => exact inv_step ih hs

/-- Once in the discussion phase, every operation keeps the phase there
and leaves the topic unchanged (no transition leaves HTF_DISCUSSION). -/
lemma step_preserves_discussion {st st₁ : AppState} (hs : Step st st₁)
    (hp : st.phase = .HTF_DISCUSSION) :
    st₁.phase = .HTF_DISCUSSION ∧ st₁.topic = st.topic := by
  have hp' : st.phase ≠ .TOPIC_SETTING := by rw [hp]; intro hx; cases hx
  cases hs with
  | send input o =>
      by_cases h1 : jsTrim input = ""
      · rw [handleSend_empty st input o h1]; exact ⟨hp, rfl⟩
      by_cases h2 : st.apiKey = ""
      · rw [handleSend_noKey st input o h1 h2]; exact ⟨hp, rfl⟩
      rcases interpretOutcome_cases o with ⟨r, rfl⟩ | ⟨e, ho⟩
      · rw [handleSend_discussion_ok st input r h1 h2 hp']; exact ⟨hp, rfl⟩
      · rw [handleSend_discussion_error st input o e h1 h2 hp' ho]; exact ⟨hp, rfl⟩
  | saveKey raw =>
      dsimp [saveApiKey]
      split_ifs <;> exact ⟨hp, rfl⟩
  | setModel m => exact ⟨hp, rfl⟩
  | setAutoSpeak b => exact ⟨hp, rfl⟩

namespace Simple

lemma simpleHandleSend_empty (st : SState) (input : String) (o : FetchOutcome)
    (h : jsTrim input = "") : handleSend st input o = (st, noEffects) := by
  simp [handleSend, h]

lemma simpleHandleSend_noKey (st : SState) (input : String) (o : FetchOutcome)
    (h : jsTrim input ≠ "") (hk : st.apiKey = "") :
    handleSend st input o =
      (st, { noEffects with alerts := ["Please set your Groq API Key first."] }) := by
  simp [handleSend, h, hk]

lemma handleSend_ok (st : SState) (input r : String)
    (h : jsTrim input ≠ "") (hk : st.apiKey ≠ "") :
    handleSend st input (.ok r) =
      ({ st with history := st.history ++ [⟨"user", jsTrim input⟩, ⟨"assistant", r⟩] },
       { rendered := [⟨"user", jsTrim input⟩, ⟨"assistant", r⟩]
         alerts := []
         fetches := [buildRequest
           { st with history := st.history ++ [⟨"user", jsTrim input⟩] }]
         utterances :=
           (if st.autoSpeak then [speakText (jsTrim input)] else [])
             ++ (if st.autoSpeak then [speakText r] else []) }) := by
  simp [handleSend, h, hk, fetchGroqCompletion, interpretOutcome]

lemma handleSend_error (st : SState) (input : String) (o : FetchOutcome) (e : String)
    (h : jsTrim input ≠ "") (hk : st.apiKey ≠ "") (ho : interpretOutcome o = .error e) :
    handleSend st input o =
      ({ st with history := st.history ++ [⟨"user", jsTrim input⟩] },
       { rendered := [⟨"user", jsTrim input⟩, ⟨"system", "Error: " ++ e⟩]
         alerts := []
         fetches := [buildRequest
           { st with history := st.history ++ [⟨"user", jsTrim input⟩] }]
         utterances := if st.autoSpeak then [speakText (jsTrim input)] else [] }) := by
  simp [handleSend, h, hk, fetchGroqCompletion, ho]

lemma sinv_initApp (k m : Option String) : SInv (initApp k m) := by
  have hbase : SInv initialState := by intro x hx; cases hx
  unfold initApp
  cases k <;> cases m <;> dsimp <;> (try split_ifs) <;> exact hbase

lemma sinv_step {st st₁ : SState} (h : SInv st) (hs : SStep st st₁) : SInv st₁ := by
  cases hs with
  | send input o =>
      by_cases h1 : jsTrim input = ""
      · rw [simpleHandleSend_empty st input o h1]; exact h
      by_cases h2 : st.apiKey = ""
      · rw [simpleHandleSend_noKey st input o h1 h2]; exact h
      rcases interpretOutcome_cases o with ⟨r, rfl⟩ | ⟨e, ho⟩
      · rw [handleSend_ok st input r h1 h2]
        exact rolesOk_append h (rolesOk_pair _ _)
      · rw [handleSend_error st input o e h1 h2 ho]
        exact rolesOk_append h (rolesOk_user _)
  | saveKey raw =>
      dsimp [saveApiKey]
      split_ifs <;> exact h
  | setModel m => exact h
  | setAutoSpeak b => exact h

/-- Every reachable simple-variant state satisfies the invariant. -/
lemma sinv_reachable {st : SState} (h : SReachable st) : SInv st := by
  induction h with
  | init k m => exact sinv_initApp k m
  | step _ hs ih => exact sinv_step ih hs

end Simple

/-! Claim theorems. -/

/-- C9: in both variants, a submission that is empty after trimming is a
silent no-op (state unchanged, nothing rendered, no alert, no network
call), and a non-empty submission without an API key makes no network
call and leaves the state unchanged while surfacing an alert prompt. -/
theorem submit_empty_or_missing_key (st : AppState) (s : Simple.SState)
    (input : String) (o : FetchOutcome) :
    (jsTrim input = "" →
       handleSend st input o = (st, noEffects) ∧
       Simple.handleSend s input o = (s, noEffects)) ∧
    (jsTrim input ≠ "" → st.apiKey = "" →
       handleSend st input o =
         (st, { noEffects with alerts := ["Groq APIキーを設定してください。"] })) ∧
    (jsTrim input ≠ "" → s.apiKey = "" →
       Simple.handleSend s input o =
         (s, { noEffects with alerts := ["Please set your Groq API Key first."] })) := by
  refine ⟨fun h => ⟨handleSend_empty st input o h, Simple.simpleHandleSend_empty s input o h⟩,
          fun h hk => handleSend_noKey st input o h hk,
          fun h hk => Simple.simpleHandleSend_noKey s input o h hk⟩

/-- Witness for the C9 theorem at concrete inputs: a whitespace-only
submission in the phase variant and a keyless submission in the simple
variant. -/
theorem submit_empty_or_missing_key_witness :
    handleSend initialState "   " (.ok "r") = (initialState, noEffects) ∧
    Simple.handleSend Simple.initialState "hi" (.ok "r")
      = (Simple.initialState,
         { noEffects with alerts := ["Please set your Groq API Key first."] }) :=
  ⟨((submit_empty_or_missing_key initialState Simple.initialState "   " (.ok "r")).1
      (by decide)).1,
   (submit_empty_or_missing_key initialState Simple.initialState "hi" (.ok "r")).2.2
      (by decide) rfl⟩

/-- C4: a non-empty trimmed submission in the discussion phase with a
key configured appends exactly one user message and, on a successful
completion, exactly one assistant message, in that order, and nothing
else; likewise for every accepted submission of the simple variant. -/
theorem submit_success_appends_user_then_assistant
    (st : AppState) (s : Simple.SState) (input r : String)
    (h : jsTrim input ≠ "") (hk : st.apiKey ≠ "")
    (hp : st.phase = .HTF_DISCUSSION) (hks : s.apiKey ≠ "") :
    (handleSend st input (.ok r)).1.history
      = st.history ++ [⟨"user", jsTrim input⟩, ⟨"assistant", r⟩] ∧
    (Simple.handleSend s input (.ok r)).1.history
      = s.history ++ [⟨"user", jsTrim input⟩, ⟨"assistant", r⟩] := by
  have hp' : st.phase ≠ .TOPIC_SETTING := by rw [hp]; intro hx; cases hx
  rw [handleSend_discussion_ok st input r h hk hp']
  rw [Simple.handleSend_ok s input r h hks]
  exact ⟨rfl, rfl⟩

/-- Witness for the C4 theorem: a concrete discussion-phase state with a
key, a concrete input and a concrete successful reply. -/
theorem submit_success_appends_user_then_assistant_witness :
    (handleSend { initialState with apiKey := "k", phase := .HTF_DISCUSSION }
        " hi " (.ok "yo")).1.history
      = [⟨"user", "hi"⟩, ⟨"assistant", "yo"⟩] ∧
    (Simple.handleSend { Simple.initialState with apiKey := "k" } " hi " (.ok "yo")).1.history
      = [⟨"user", "hi"⟩, ⟨"assistant", "yo"⟩] :=
  submit_success_appends_user_then_assistant
    { initialState with apiKey := "k", phase := .HTF_DISCUSSION }
    { Simple.initialState with apiKey := "k" }
    " hi " "yo" (by decide) (by decide) rfl (by decide)

/-- C3 counterexample: the submission that triggers the topic transition
issues exactly one completion call (the auto-generated consultation
message is sent in the same single request over the updated history),
not two as claimed. -/
theorem topic_turn_two_calls_counterexample :
    (handleSend { initialState with apiKey := "k" } "topic" (.ok "reply")).2.fetches.length = 1 ∧
    ¬ (handleSend { initialState with apiKey := "k" } "topic"
        (.ok "reply")).2.fetches.length = 2 := by
  decide

/-- C3 amended: every accepted submission, whether it is the
topic-setting turn or a discussion turn, issues exactly one network call
to the completion endpoint. -/
theorem submit_single_completion_call (st : AppState) (input : String) (o : FetchOutcome)
    (h : jsTrim input ≠ "") (hk : st.apiKey ≠ "")
    (hp : st.phase = .TOPIC_SETTING ∨ st.phase = .HTF_DISCUSSION) :
    (handleSend st input o).2.fetches.length = 1 := by
  rcases hp with hp | hp
  · rw [handleSend_topicPhase st input o h hk hp]
    rcases interpretOutcome_cases o with ⟨r, rfl⟩ | ⟨e, ho⟩
    · rw [setTopic_ok]; rfl
    · rw [setTopic_error st (jsTrim input) o e ho]; rfl
  · have hp' : st.phase ≠ .TOPIC_SETTING := by rw [hp]; intro hx; cases hx
    rcases interpretOutcome_cases o with ⟨r, rfl⟩ | ⟨e, ho⟩
    · rw [handleSend_discussion_ok st input r h hk hp']; rfl
    · rw [handleSend_discussion_error st input o e h hk hp' ho]; rfl

/-- Witness for the amended C3 theorem: the concrete topic-setting turn
issues one call. -/
theorem submit_single_completion_call_witness :
    (handleSend { initialState with apiKey := "k" } "t" (.exn "down")).2.fetches.length = 1 :=
  submit_single_completion_call { initialState with apiKey := "k" } "t" (.exn "down")
    (by decide) (by decide) (Or.inl rfl)

/-- C5: an accepted submission in the topic phase transitions to the
discussion phase and stores the trimmed submission as the topic; a
rejected submission (blank, or no key) leaves the state untouched, so
only the first accepted submission triggers the transition; and from the
discussion phase every operation keeps the phase there and never changes
the topic, so the transition happens at most once and the machine never
returns to the topic phase. -/
theorem topic_transition_once (st : AppState) (input : String) (o : FetchOutcome)
    (h : jsTrim input ≠ "") (hk : st.apiKey ≠ "") (hp : st.phase = .TOPIC_SETTING) :
    (handleSend st input o).1.phase = .HTF_DISCUSSION ∧
    (handleSend st input o).1.topic = jsTrim input ∧
    (∀ (st₀ : AppState) (input₀ : String) (o₀ : FetchOutcome),
        jsTrim input₀ = "" ∨ st₀.apiKey = "" → (handleSend st₀ input₀ o₀).1 = st₀) ∧
    (∀ s s₁ : AppState, Step s s₁ → s.phase = .HTF_DISCUSSION →
        s₁.phase = .HTF_DISCUSSION ∧ s₁.topic = s.topic) := by
  refine ⟨?_, ?_, ?_, fun s s₁ hs hph => step_preserves_discussion hs hph⟩
  · rw [handleSend_topicPhase st input o h hk hp]
    rcases interpretOutcome_cases o with ⟨r, rfl⟩ | ⟨e, ho⟩
    · rw [setTopic_ok]
    · rw [setTopic_error st (jsTrim input) o e ho]
  · rw [handleSend_topicPhase st input o h hk hp]
    rcases interpretOutcome_cases o with ⟨r, rfl⟩ | ⟨e, ho⟩
    · rw [setTopic_ok]
    · rw [setTopic_error st (jsTrim input) o e ho]
  · intro st₀ input₀ o₀ hrej
    rcases hrej with hrej | hrej
    · rw [handleSend_empty st₀ input₀ o₀ hrej]
    · by_cases h1 : jsTrim input₀ = ""
      · rw [handleSend_empty st₀ input₀ o₀ h1]
      · rw [handleSend_noKey st₀ input₀ o₀ h1 hrej]

/-- Witness for the C5 theorem: the concrete first accepted submission
from the initial state with a key. -/
theorem topic_transition_once_witness :
    (handleSend { initialState with apiKey := "k" } " t " (.ok "r")).1.phase
        = .HTF_DISCUSSION ∧
    (handleSend { initialState with apiKey := "k" } " t " (.ok "r")).1.topic = jsTrim " t " ∧
    (∀ (st₀ : AppState) (input₀ : String) (o₀ : FetchOutcome),
        jsTrim input₀ = "" ∨ st₀.apiKey = "" → (handleSend st₀ input₀ o₀).1 = st₀) ∧
    (∀ s s₁ : AppState, Step s s₁ → s.phase = .HTF_DISCUSSION →
        s₁.phase = .HTF_DISCUSSION ∧ s₁.topic = s.topic) :=
  topic_transition_once { initialState with apiKey := "k" } " t " (.ok "r")
    (by decide) (by decide) rfl

/-- C1: when the remote call fails on an accepted discussion-phase
submission, exactly one system-role message is surfaced and it carries
the error text; the history equals the history over which the failed
request was issued (the request in the effect list carries exactly the
final history, so nothing was appended after the call failed and no
assistant turn was written); and the phase and topic are unchanged, so
the next submission is accepted. The simple variant behaves the same. -/
theorem submit_failure_single_error_message
    (st : AppState) (s : Simple.SState) (input : String) (o : FetchOutcome) (e : String)
    (h : jsTrim input ≠ "") (hk : st.apiKey ≠ "") (hp : st.phase = .HTF_DISCUSSION)
    (ho : interpretOutcome o = .error e) (hks : s.apiKey ≠ "") :
    ((handleSend st input o).2.rendered.filter (fun m => m.role == "system"))
        = [⟨"system", "Error: " ++ e⟩] ∧
    (handleSend st input o).1.history = st.history ++ [⟨"user", jsTrim input⟩] ∧
    (handleSend st input o).2.fetches
        = [buildRequestPhase { st with history := (handleSend st input o).1.history }] ∧
    (handleSend st input o).1.phase = st.phase ∧
    (handleSend st input o).1.topic = st.topic ∧
    ((Simple.handleSend s input o).2.rendered.filter (fun m => m.role == "system"))
        = [⟨"system", "Error: " ++ e⟩] ∧
    (Simple.handleSend s input o).1.history = s.history ++ [⟨"user", jsTrim input⟩] ∧
    (Simple.handleSend s input o).2.fetches
        = [Simple.buildRequest
             { s with history := (Simple.handleSend s input o).1.history }] := by
  have hp' : st.phase ≠ .TOPIC_SETTING := by rw [hp]; intro hx; cases hx
  rw [handleSend_discussion_error st input o e h hk hp' ho,
      Simple.handleSend_error s input o e h hks ho]
  refine ⟨by simp, rfl, rfl, rfl, rfl, by simp, rfl, rfl⟩

/-- Witness for the C1 theorem: the specified scenario, an HTTP error
whose body carries the message invalid_api_key. -/
theorem submit_failure_single_error_message_witness :
    ((handleSend { initialState with apiKey := "k", phase := .HTF_DISCUSSION } "hi"
        (.apiError (some "invalid_api_key"))).2.rendered.filter
          (fun m => m.role == "system"))
      = [⟨"system", "Error: " ++ "invalid_api_key"⟩] :=
  (submit_failure_single_error_message
      { initialState with apiKey := "k", phase := .HTF_DISCUSSION }
      { Simple.initialState with apiKey := "k" } "hi"
      (.apiError (some "invalid_api_key")) "invalid_api_key"
      (by decide) (by decide) rfl rfl (by decide)).1

/-- C2: in every reachable state of either variant, the request payload
is exactly one synthesized system message followed by the entire
history, the system message sits in the first position, no other
system-role message occurs in the payload, and the synthesized system
message is never an element of the stored history. -/
theorem request_single_system_message (st : AppState) (s : Simple.SState)
    (hst : Reachable st) (hs : Simple.SReachable s) :
    (buildRequestPhase st).messages
        = ⟨"system", systemContentPhase st.topic⟩ :: st.history ∧
    (buildRequestPhase st).messages.head?
        = some ⟨"system", systemContentPhase st.topic⟩ ∧
    ((buildRequestPhase st).messages.countP (fun m => m.role == "system")) = 1 ∧
    ⟨"system", systemContentPhase st.topic⟩ ∉ st.history ∧
    (Simple.buildRequest s).messages = ⟨"system", Simple.systemContent⟩ :: s.history ∧
    (Simple.buildRequest s).messages.head? = some ⟨"system", Simple.systemContent⟩ ∧
    ((Simple.buildRequest s).messages.countP (fun m => m.role == "system")) = 1 ∧
    ⟨"system", Simple.systemContent⟩ ∉ s.history := by
  have h1 := (inv_reachable hst).2
  have h2 := Simple.sinv_reachable hs
  have hzero : ∀ (l : List Message), RolesOk l →
      l.countP (fun m => m.role == "system") = 0 := by
    intro l hl
    rw [List.countP_eq_zero]
    intro m hm
    rcases hl m hm with hr | hr <;> simp [hr]
  have hone : ∀ (c : String) (l : List Message), RolesOk l →
      ((⟨"system", c⟩ : Message) :: l).countP (fun m => m.role == "system") = 1 := by
    intro c l hl
    simp [List.countP_cons, hzero l hl]
  have hnotin : ∀ (c : String) (l : List Message), RolesOk l →
      (⟨"system", c⟩ : Message) ∉ l := by
    intro c l hl hmem
    have : ("system" : String) = "user" ∨ ("system" : String) = "assistant" := hl _ hmem
    rcases this with hr | hr <;> exact absurd hr (by decide)
  exact ⟨rfl, rfl, hone _ _ h1, hnotin _ _ h1,
         rfl, rfl, hone _ _ h2, hnotin _ _ h2⟩

/-- Witness for the C2 theorem at the fresh start states of both
variants. -/
theorem request_single_system_message_witness :
    ((buildRequestPhase (initApp none none)).messages.countP
        (fun m => m.role == "system")) = 1 :=
  (request_single_system_message (initApp none none) (Simple.initApp none none)
      (Reachable.init none none) (Simple.SReachable.init none none)).2.2.1

/-- C6: in every reachable phase-variant state whose phase is
TOPIC_SETTING, the topic is the empty string and the history is empty
(in particular it holds no assistant message). -/
theorem topic_setting_topic_and_history_empty (st : AppState)
    (hst : Reachable st) (hp : st.phase = .TOPIC_SETTING) :
    st.topic = "" ∧ st.history = [] ∧ ∀ m ∈ st.history, m.role ≠ "assistant" := by
  obtain ⟨ht, hh⟩ := (inv_reachable hst).1 hp
  refine ⟨ht, hh, ?_⟩
  rw [hh]
  intro m hm
  cases hm

/-- Witness for the C6 theorem: the fresh start state. -/
theorem topic_setting_topic_and_history_empty_witness :
    (initApp none none).topic = "" ∧ (initApp none none).history = [] ∧
    ∀ m ∈ (initApp none none).history, m.role ≠ "assistant" :=
  topic_setting_topic_and_history_empty (initApp none none) (Reachable.init none none) rfl

/-- C10: in every reachable state of either variant, every message in
the history has role user or assistant and never role system; system
error messages and the topic announcement are rendered only. -/
theorem history_roles_user_or_assistant (st : AppState) (s : Simple.SState)
    (hst : Reachable st) (hs : Simple.SReachable s) :
    (∀ m ∈ st.history, (m.role = "user" ∨ m.role = "assistant") ∧ m.role ≠ "system") ∧
    (∀ m ∈ s.history, (m.role = "user" ∨ m.role = "assistant") ∧ m.role ≠ "system") := by
  have h1 := (inv_reachable hst).2
  have h2 := Simple.sinv_reachable hs
  constructor <;> intro m hm
  · exact ⟨h1 m hm, by rcases h1 m hm with h | h <;> rw [h] <;> decide⟩
  · exact ⟨h2 m hm, by rcases h2 m hm with h | h <;> rw [h] <;> decide⟩

/-- Witness for the C10 theorem on a reachable state with a non-empty
history: after the first accepted turn, the stored assistant message has
a non-system role. -/
theorem history_roles_user_or_assistant_witness :
    ((⟨"assistant", "r"⟩ : Message).role = "user"
        ∨ (⟨"assistant", "r"⟩ : Message).role = "assistant")
      ∧ (⟨"assistant", "r"⟩ : Message).role ≠ "system" :=
  (history_roles_user_or_assistant
      (handleSend (initApp (some "k") none) "t" (.ok "r")).1
      (Simple.initApp none none)
      (Reachable.step (Reachable.init (some "k") none)
        (Step.send (initApp (some "k") none) "t" (.ok "r")))
      (Simple.SReachable.init none none)).1
    ⟨"assistant", "r"⟩ (by decide)

/-- C7: the phase-variant system prompt embeds the HTF grammar text
verbatim and interpolates the current topic into the instruction; both
variants send the selected model id with the fixed temperature 0.7
(modelled as the rational 7/10), and the fixed max_tokens cap of the
simple variant, 1024, is strictly smaller than the phase-variant cap,
2048. -/
theorem request_grammar_and_parameters (st : AppState) (s : Simple.SState) :
    (∃ a b c, systemContentPhase st.topic = a ++ HTF_GRAMMAR ++ b ++ st.topic ++ c) ∧
    (buildRequestPhase st).messages.head?
        = some ⟨"system", systemContentPhase st.topic⟩ ∧
    (buildRequestPhase st).model = st.model ∧
    (buildRequestPhase st).temperature = 7/10 ∧
    (buildRequestPhase st).max_tokens = 2048 ∧
    (Simple.buildRequest s).model = s.model ∧
    (Simple.buildRequest s).temperature = 7/10 ∧
    (Simple.buildRequest s).max_tokens = 1024 ∧
    (Simple.buildRequest s).max_tokens < (buildRequestPhase st).max_tokens := by
  have hlt : (Simple.buildRequest s).max_tokens < (buildRequestPhase st).max_tokens := by
    show (1024 : Nat) < 2048
    decide
  exact ⟨⟨_, _, _, rfl⟩, rfl, rfl, rfl, rfl, rfl, rfl, rfl, hlt⟩

/-- C8: narration cleaning removes the markdown markers (asterisk, hash,
backtick) in both variants; the language tag is ja-JP exactly when the
cleaned text contains a character of the Hiragana or Katakana ranges,
else en-US; the phase variant removes thinking blocks in full, so the
scenario text narrates as Hello, while the simple variant leaves
the tags in place; and cleaning touches only the narrated copy: the
stored assistant message keeps the original text even when it is
spoken. -/
theorem speak_cleaning_and_language (t : String) :
    (∀ c ∈ (speakTextPhase t).text.data, mdMark c = false) ∧
    (∀ c ∈ (Simple.speakText t).text.data, mdMark c = false) ∧
    ((speakTextPhase t).lang = "ja-JP"
        ↔ ∃ c ∈ (speakTextPhase t).text.data, isKana c = true) ∧
    ((Simple.speakText t).lang = "ja-JP"
        ↔ ∃ c ∈ (Simple.speakText t).text.data, isKana c = true) ∧
    ((speakTextPhase t).lang = "ja-JP" ∨ (speakTextPhase t).lang = "en-US") ∧
    speakTextPhase "<think>secret</think>Hello" = ⟨"Hello", "en-US"⟩ ∧
    Simple.speakText "<think>secret</think>Hello"
        = ⟨"<think>secret</think>Hello", "en-US"⟩ ∧
    (∀ (st : AppState) (input r : String),
        st.phase = .HTF_DISCUSSION → jsTrim input ≠ "" → st.apiKey ≠ "" →
        st.autoSpeak = true →
        (handleSend st input (.ok r)).2.utterances = [speakTextPhase r] ∧
        (handleSend st input (.ok r)).1.history
          = st.history ++ [⟨"user", jsTrim input⟩, ⟨"assistant", r⟩]) := by
  have key : ∀ (u : String),
      ((if hasJapanese u then "ja-JP" else "en-US") = "ja-JP"
        ↔ ∃ c ∈ u.data, isKana c = true) := by
    intro u
    by_cases hj : hasJapanese u = true
    · simp only [hj, if_true]
      exact ⟨fun _ => List.any_eq_true.mp hj, fun _ => trivial⟩
    · have hj' : hasJapanese u = false := by simpa using hj
      simp only [hj', if_false]
      constructor
      · intro hcontra; exact absurd hcontra (by decide)
      · intro hex
        exact absurd (List.any_eq_true.mpr hex) (by simpa [hasJapanese] using hj)
  refine ⟨?_, ?_, key (cleanTextPhase t), key (stripMarkdown t), ?_, by decide, by decide, ?_⟩
  · intro c hc
    replace hc : c ∈ List.filter (fun c => !(mdMark c)) (removeThink t).data := hc
    simpa using (List.mem_filter.mp hc).2
  · intro c hc
    replace hc : c ∈ List.filter (fun c => !(mdMark c)) t.data := hc
    simpa using (List.mem_filter.mp hc).2
  · dsimp only [speakTextPhase]
    by_cases hj : hasJapanese (cleanTextPhase t) = true
    · rw [hj]; exact Or.inl (by simp)
    · have hj' : hasJapanese (cleanTextPhase t) = false := by simpa using hj
      rw [hj']; exact Or.inr (by simp)
  · intro st input r hp h hk ha
    have hp' : st.phase ≠ .TOPIC_SETTING := by rw [hp]; intro hx; cases hx
    rw [handleSend_discussion_ok st input r h hk hp']
    exact ⟨by simp [ha], rfl⟩

/-- Witness for the C7 theorem: the phase-variant cap evaluated at the
initial states. -/
theorem request_grammar_and_parameters_witness :
    (buildRequestPhase initialState).max_tokens = 2048 :=
  (request_grammar_and_parameters initialState Simple.initialState).2.2.2.2.1

/-- Witness for the C8 theorem: the thinking-block scenario evaluated
concretely. -/
theorem speak_cleaning_and_language_witness :
    speakTextPhase "<think>secret</think>Hello" = ⟨"Hello", "en-US"⟩ :=
  (speak_cleaning_and_language "x").2.2.2.2.2.1

end Groqchat
